import Mathlib

/-
Shallow embedding of the youtube-mcp-server stdio server (stdio_server.py).

Conventions of the embedding:
- Python strings are Lean Strings; regex scanning over them is modelled as
  explicit recursion over their character lists, implementing the exact
  left-to-right search semantics of re.search for the two concrete patterns
  appearing in _extract_video_id.
- Python floats are modelled as rationals; int() truncation toward zero is
  Int.tdiv of numerator by denominator, Python // and % on ints are Int.fdiv
  and Int.fmod (floor division, modulus with the sign of the divisor).
- Fallible code returns Except String; the two network fetchers of the
  orchestrator are oracle parameters.  The orchestrator additionally counts
  how many times the metadata fetcher is invoked.
- Transcript segments carry their start offset plus arbitrary passthrough
  fields of an abstract value type.
-/

-- ## VideoIdExtractor (_extract_video_id, lines 59-71)

-- the character class [a-zA-Z0-9_-] of both regex patterns
def isIdChar (c : Char) : Bool := c.isAlphanum || c = '_' || c = '-'

-- consume an exact literal from the front of the input
def dropLit : List Char → List Char → Option (List Char)
  | [], s => some s
  | _ :: _, [] => none
  | p :: ps, c :: cs => if p = c then dropLit ps cs else none

-- consume exactly n characters of the id class, returning them
def idTake : Nat → List Char → Option (List Char)
  | 0, _ => some []
  | _ + 1, [] => none
  | n + 1, c :: cs => if isIdChar c then (idTake n cs).map (c :: ·) else none

-- the five alternatives of the first pattern, in regex alternation order
def p1Lits : List (List Char) :=
  ["youtube.com/watch?v=".data, "youtu.be/".data, "youtube.com/embed/".data,
   "youtube.com/v/".data, "youtube.com/shorts/".data]

-- at one start position: try each alternative followed by 11 id characters
def tryLitsAt (lits : List (List Char)) (s : List Char) : Option (List Char) :=
  match lits with
  | [] => none
  | l :: ls =>
    match dropLit l s with
    | some rest =>
      match idTake 11 rest with
      | some g => some g
      | none => tryLitsAt ls s
    | none => tryLitsAt ls s

-- re.search for pattern 1: leftmost start position wins
def searchP1 : List Char → Option (List Char)
  | [] => none
  | c :: rest =>
    match tryLitsAt p1Lits (c :: rest) with
    | some g => some g
    | none => searchP1 rest

def ytLit : List Char := "youtube.com/".data

def vEqLit : List Char := "v=".data

-- after "youtube.com/", the greedy ".*[?&]v=(id)" part: the rightmost
-- occurrence of [?&]v= followed by 11 id characters wins, and the gap
-- consumed by ".*" may not contain a newline
def lastVMatch : List Char → Option (List Char)
  | [] => none
  | c :: cs =>
    if c = '\n' then none
    else
      match lastVMatch cs with
      | some g => some g
      | none =>
        if c = '?' ∨ c = '&' then
          match dropLit vEqLit cs with
          | some r => idTake 11 r
          | none => none
        else none

-- re.search for pattern 2: leftmost "youtube.com/" with a v= match after it
def searchP2 : List Char → Option (List Char)
  | [] => none
  | c :: cs =>
    match dropLit ytLit (c :: cs) with
    | some r =>
      match lastVMatch r with
      | some g => some g
      | none => searchP2 cs
    | none => searchP2 cs

-- _extract_video_id: patterns tried in order, ValueError modelled as error
def extract_video_id (url : String) : Except String String :=
  match searchP1 url.data with
  | some g => .ok (String.mk g)
  | none =>
    match searchP2 url.data with
    | some g => .ok (String.mk g)
    | none => .error "No valid YouTube video ID found in URL"

-- ## TimeFormatter (_format_time, lines 73-83)

-- Python f-string "%02d": zero-pad to a minimum width of two digits
def pad2i (n : Int) : String :=
  if 0 ≤ n ∧ n < 10 then "0" ++ toString n else toString n

-- _format_time; int() truncates toward zero, // and % are floor div / mod
def format_time (seconds : ℚ) : String :=
  let total_seconds : Int := seconds.num.tdiv (seconds.den : Int)
  let hours : Int := total_seconds.fdiv 3600
  let minutes : Int := (total_seconds.fmod 3600).fdiv 60
  let secs : Int := total_seconds.fmod 60
  if 0 < hours then pad2i hours ++ ":" ++ pad2i minutes ++ ":" ++ pad2i secs
  else pad2i minutes ++ ":" ++ pad2i secs

-- ## MetadataFetcher (get_video_details, lines 85-118)

-- dict.get with a default, over an association-list model of a JSON object
def dget (d : List (String × String)) (k dflt : String) : String :=
  match d.find? (fun kv => kv.1 == k) with
  | some kv => kv.2
  | none => dflt

structure VideoMetadata where
  title : String
  description : String
  channel_title : String
  published_at : String
  duration : String
  view_count : String
  like_count : String
  comment_count : String
deriving DecidableEq

-- one element of the "items" list of the response, with its three facet objects;
-- a facet missing from the response is the empty association list
structure VideoItem where
  snippet : List (String × String)
  statistics : List (String × String)
  contentDetails : List (String × String)
deriving DecidableEq

-- the HTTP response of the metadata backend, as observed by get_video_details
structure YtResponse where
  status : Nat
  items : List VideoItem
deriving DecidableEq

def get_video_details (resp : YtResponse) : Except String VideoMetadata :=
  if resp.status ≠ 200 then
    .error ("YouTube API request failed with status " ++ toString resp.status)
  else
    match resp.items with
    | [] => .error "Video not found or unavailable"
    | video_info :: _ =>
      .ok ⟨dget video_info.snippet "title" "",
           dget video_info.snippet "description" "",
           dget video_info.snippet "channelTitle" "",
           dget video_info.snippet "publishedAt" "",
           dget video_info.contentDetails "duration" "",
           dget video_info.statistics "viewCount" "0",
           dget video_info.statistics "likeCount" "0",
           dget video_info.statistics "commentCount" "0"⟩

-- ## LookupOrchestrator (get_youtube_video_transcript, lines 120-161)

-- a raw transcript segment: its start offset in seconds plus all other
-- passthrough fields, of an abstract value type α
structure RawSegment (α : Type) where
  start : ℚ
  fields : List (String × α)
deriving DecidableEq

-- a segment whose start has been replaced by its display string
structure FmtSegment (α : Type) where
  start : String
  fields : List (String × α)
deriving DecidableEq

inductive LookupResult (α : Type) where
  | transcript (video_id : String) (segs : List (FmtSegment α))
  | details (video_id : String) (video_details : VideoMetadata)
  | error (msg : String)
deriving DecidableEq

-- the per-segment dict update: start replaced, all other fields kept
def fmtSegment {α : Type} (s : RawSegment α) : FmtSegment α :=
  ⟨format_time s.start, s.fields⟩

-- the orchestrator, instrumented with the number of metadata-fetch calls;
-- the transcript fetcher and the metadata fetcher are oracle parameters
def lookupT {α : Type} (fetchTr : String → Except String (List (RawSegment α)))
    (fetchMd : String → Except String VideoMetadata) (url : String) :
    LookupResult α × Nat :=
  match extract_video_id url with
  | .error e => (.error ("Invalid YouTube URL: " ++ e), 0)
  | .ok video_id =>
    match fetchTr video_id with
    | .ok raw_transcript => (.transcript video_id (raw_transcript.map fmtSegment), 0)
    | .error _ =>
      match fetchMd video_id with
      | .ok video_details => (.details video_id video_details, 1)
      | .error em => (.error ("Failed to process request: " ++ em), 1)

def get_youtube_video_transcript {α : Type}
    (fetchTr : String → Except String (List (RawSegment α)))
    (fetchMd : String → Except String VideoMetadata) (url : String) :
    LookupResult α :=
  (lookupT fetchTr fetchMd url).1

-- ## JSON serialization (json.dumps(result, indent=2)) and the tool boundary

inductive JVal (α : Type) where
  | jstr (s : String)
  | jatom (a : α)
  | jarr (xs : List (JVal α))
  | jobj (kvs : List (String × JVal α))

def hexDigit (n : Nat) : Char :=
  if n < 10 then Char.ofNat (48 + n) else Char.ofNat (87 + n)

def hex4 (n : Nat) : List Char :=
  [hexDigit (n / 4096 % 16), hexDigit (n / 256 % 16), hexDigit (n / 16 % 16), hexDigit (n % 16)]

-- the CPython ensure_ascii string escaping: backslash, quote, the five short
-- escapes, and \uXXXX (with surrogate pairs) for anything outside 0x20-0x7e
def escChar (c : Char) : List Char :=
  if c = '"' then ['\\', '"']
  else if c = '\\' then ['\\', '\\']
  else if c = '\n' then ['\\', 'n']
  else if c = '\r' then ['\\', 'r']
  else if c = '\t' then ['\\', 't']
  else if c.toNat = 8 then ['\\', 'b']
  else if c.toNat = 12 then ['\\', 'f']
  else if 32 ≤ c.toNat ∧ c.toNat ≤ 126 then [c]
  else if c.toNat < 65536 then '\\' :: 'u' :: hex4 c.toNat
  else
    ('\\' :: 'u' :: hex4 (55296 + (c.toNat - 65536) / 1024)) ++
    ('\\' :: 'u' :: hex4 (56320 + (c.toNat - 65536) % 1024))

def jstrLit (s : String) : String :=
  "\"" ++ String.mk (s.data.flatMap escChar) ++ "\""

def sp (lvl : Nat) : String := String.mk (List.replicate (2 * lvl) ' ')

mutual

def dumpVal {α : Type} (r : α → String) (lvl : Nat) : JVal α → String
  | .jstr s => jstrLit s
  | .jatom a => r a
  | .jarr [] => "[]"
  | .jarr (x :: xs) => "[\n" ++ dumpArr r (lvl + 1) (x :: xs) ++ "\n" ++ sp lvl ++ "]"
  | .jobj [] => "\x7b\x7d"
  | .jobj (kv :: kvs) => "\x7b\n" ++ dumpObj r (lvl + 1) (kv :: kvs) ++ "\n" ++ sp lvl ++ "\x7d"

def dumpArr {α : Type} (r : α → String) (lvl : Nat) : List (JVal α) → String
  | [] => ""
  | [x] => sp lvl ++ dumpVal r lvl x
  | x :: y :: xs => sp lvl ++ dumpVal r lvl x ++ ",\n" ++ dumpArr r lvl (y :: xs)

def dumpObj {α : Type} (r : α → String) (lvl : Nat) : List (String × JVal α) → String
  | [] => ""
  | [kv] => sp lvl ++ jstrLit kv.1 ++ ": " ++ dumpVal r lvl kv.2
  | kv :: kw :: kvs =>
    sp lvl ++ jstrLit kv.1 ++ ": " ++ dumpVal r lvl kv.2 ++ ",\n" ++ dumpObj r lvl (kw :: kvs)

end

-- json.dumps(v, indent=2); atoms (passthrough field values) are rendered by r
def json_dumps_indent2 {α : Type} (r : α → String) (v : JVal α) : String :=
  dumpVal r 0 v

def segJson {α : Type} (s : FmtSegment α) : JVal α :=
  .jobj (("start", .jstr s.start) :: s.fields.map (fun kv => (kv.1, .jatom kv.2)))

def metadataJson {α : Type} (md : VideoMetadata) : JVal α :=
  .jobj [("title", .jstr md.title), ("description", .jstr md.description),
         ("channel_title", .jstr md.channel_title), ("published_at", .jstr md.published_at),
         ("duration", .jstr md.duration), ("view_count", .jstr md.view_count),
         ("like_count", .jstr md.like_count), ("comment_count", .jstr md.comment_count)]

def resultJson {α : Type} : LookupResult α → JVal α
  | .transcript video_id segs =>
    .jobj [("video_id", .jstr video_id), ("transcript", .jarr (segs.map segJson))]
  | .details video_id video_details =>
    .jobj [("video_id", .jstr video_id), ("video_details", metadataJson video_details)]
  | .error msg => .jobj [("error", .jstr msg)]

inductive ToolContent where
  | text (s : String)
deriving DecidableEq

-- dict.get on the tool-call arguments
def argGet (args : List (String × String)) (k : String) : Option String :=
  (args.find? (fun kv => kv.1 == k)).map (fun kv => kv.2)

-- handle_call_tool (lines 186-223); the Boolean records whether the lookup
-- pipeline was invoked.  the Python falsiness test "if not url" accepts both a
-- missing argument and an empty string.
def handle_call_tool {α : Type} (r : α → String) (lookupFn : String → LookupResult α)
    (name : String) (arguments : List (String × String)) : List ToolContent × Bool :=
  if name = "get_youtube_video_transcript" then
    match argGet arguments "url" with
    | none => ([.text "Error: URL parameter is required"], false)
    | some url =>
      if url = "" then ([.text "Error: URL parameter is required"], false)
      else ([.text (json_dumps_indent2 r (resultJson (lookupFn url)))], true)
  else ([.text ("Unknown tool: " ++ name)], false)

-- ## Spec-side pattern predicates (stating the extractor claims independently)

-- an 11-character [A-Za-z0-9_-] chunk starts here
def idChunkAt (l : List Char) : Bool :=
  decide (11 ≤ l.length) && (l.take 11).all isIdChar

-- some position carries one of the five markers followed by an id chunk
def specMarkerFrom : List Char → Bool
  | [] => false
  | c :: cs =>
    p1Lits.any (fun m => m.isPrefixOf (c :: cs) && idChunkAt ((c :: cs).drop m.length))
    || specMarkerFrom cs

-- some position before a newline carries "?v=" or "&v=" plus an id chunk
def specVAfter : List Char → Bool
  | [] => false
  | c :: cs =>
    if c = '\n' then false
    else ((c == '?' || c == '&') && vEqLit.isPrefixOf cs && idChunkAt (cs.drop 2))
      || specVAfter cs

-- some position carries "youtube.com/" with a same-line v= parameter after it
def specVParamFrom : List Char → Bool
  | [] => false
  | c :: cs =>
    (ytLit.isPrefixOf (c :: cs) && specVAfter ((c :: cs).drop 12)) || specVParamFrom cs

def specHasPattern (url : String) : Bool :=
  specMarkerFrom url.data || specVParamFrom url.data

-- ## Spec-side rendering of the time formatter (stating the claims)

-- zero-pad to a minimum of two digits
def pad2 (n : Nat) : String := if n < 10 then "0" ++ toString n else toString n

-- the claimed algorithm: truncate, decompose by 3600 and 60, render MM:SS
-- when the hours component is zero and HH:MM:SS otherwise
def specFormat (t : Nat) : String :=
  if t / 3600 = 0 then pad2 (t % 3600 / 60) ++ ":" ++ pad2 (t % 60)
  else pad2 (t / 3600) ++ ":" ++ pad2 (t % 3600 / 60) ++ ":" ++ pad2 (t % 60)

-- string s is ordered at or before string t (lexicographic on code points)
def strLe (s t : String) : Prop := s.data < t.data ∨ s.data = t.data

-- ## Lemmas about the scanners

theorem dropLit_eq (p : List Char) : ∀ s : List Char,
    dropLit p s = if p.isPrefixOf s then some (s.drop p.length) else none := by
  induction p with
  | nil => intro s; simp [dropLit, List.isPrefixOf]
  | cons a as ih =>
    intro s
    cases s with
    | nil => simp [dropLit, List.isPrefixOf]
    | cons b bs =>
      simp only [dropLit, List.isPrefixOf, List.length_cons, List.drop_succ_cons]
      by_cases h : a = b
      · simp [h, ih bs]
      · simp [h]

theorem idTake_isSome (n : Nat) : ∀ l : List Char,
    (idTake n l).isSome = (decide (n ≤ l.length) && (l.take n).all isIdChar) := by
  induction n with
  | zero => intro l; simp [idTake]
  | succ n ih =>
    intro l
    cases l with
    | nil => simp [idTake]
    | cons c cs =>
      simp only [idTake, List.take_succ_cons, List.all_cons, List.length_cons]
      by_cases h : isIdChar c
      · simp [h, ih cs, Nat.succ_le_succ_iff]
      · simp [h]

theorem idChunkAt_eq (l : List Char) : idChunkAt l = (idTake 11 l).isSome := by
  rw [idTake_isSome]; rfl

theorem idTake_some (n : Nat) : ∀ l g : List Char, idTake n l = some g →
    g = l.take n ∧ g.length = n ∧ g.all isIdChar = true := by
  induction n with
  | zero =>
    intro l g h
    simp only [idTake, Option.some_inj] at h
    subst h
    simp
  | succ n ih =>
    intro l g h
    cases l with
    | nil => simp [idTake] at h
    | cons c cs =>
      simp only [idTake] at h
      by_cases hc : isIdChar c
      · simp only [hc, if_true, Option.map_eq_some'] at h
        obtain ⟨g0, hg0, rfl⟩ := h
        obtain ⟨h1, h2, h3⟩ := ih cs g0 hg0
        refine ⟨by simp [h1], by simp [h2], by simp [hc, h3]⟩
      · simp [hc] at h

theorem idTake_of_take (n : Nat) : ∀ l : List Char, (l.take n).length = n →
    (l.take n).all isIdChar = true → idTake n l = some (l.take n) := by
  induction n with
  | zero => intro l _ _; simp [idTake]
  | succ n ih =>
    intro l hlen hall
    cases l with
    | nil => simp at hlen
    | cons c cs =>
      simp only [List.take_succ_cons, List.length_cons, List.all_cons, Bool.and_eq_true] at hlen hall
      simp [idTake, hall.1, ih cs (by omega) hall.2]

-- a literal containing a non-id character never matches inside an all-id region

theorem dropLit_none_of_allId (p : List Char)
    (hp : ∃ c, c ∈ p ∧ isIdChar c = false) :
    ∀ l : List Char, l.all isIdChar = true → dropLit p l = none := by
  induction p with
  | nil =>
    obtain ⟨c, hc, _⟩ := hp
    simp at hc
  | cons a as ih =>
    intro l hl
    cases l with
    | nil => simp [dropLit]
    | cons b bs =>
      simp only [List.all_cons, Bool.and_eq_true] at hl
      by_cases hab : a = b
      · subst hab
        obtain ⟨c, hc, hcbad⟩ := hp
        rcases List.mem_cons.mp hc with rfl | hmem
        · rw [hl.1] at hcbad; cases hcbad
        · simp [dropLit, ih ⟨c, hmem, hcbad⟩ bs hl.2]
      · simp [dropLit, hab]

theorem tryLitsAt_none_gen (lits : List (List Char))
    (hl : ∀ m ∈ lits, ∃ c, c ∈ m ∧ isIdChar c = false) :
    ∀ l : List Char, l.all isIdChar = true → tryLitsAt lits l = none := by
  induction lits with
  | nil => intro l _; rfl
  | cons m ms ih =>
    intro l h
    simp [tryLitsAt, dropLit_none_of_allId m (hl m (by simp)) l h,
      ih (fun x hx => hl x (by simp [hx])) l h]

theorem tryLitsAt_none_of_allId (l : List Char) (h : l.all isIdChar = true) :
    tryLitsAt p1Lits l = none :=
  tryLitsAt_none_gen p1Lits (by decide) l h

theorem searchP1_none_of_allId : ∀ l : List Char, l.all isIdChar = true →
    searchP1 l = none := by
  intro l
  induction l with
  | nil => intro _; rfl
  | cons c cs ih =>
    intro h
    have h2 := h
    simp only [List.all_cons, Bool.and_eq_true] at h2
    simp [searchP1, tryLitsAt_none_of_allId _ h, ih h2.2]

theorem lastVMatch_none_of_allId : ∀ l : List Char, l.all isIdChar = true →
    lastVMatch l = none := by
  intro l
  induction l with
  | nil => intro _; rfl
  | cons c cs ih =>
    intro h
    simp only [List.all_cons, Bool.and_eq_true] at h
    have hnl : ¬ c = '\n' := by
      intro hc; rw [hc] at h; exact absurd h.1 (by decide)
    have hq : ¬ (c = '?' ∨ c = '&') := by
      rintro (hc | hc) <;> rw [hc] at h <;> exact absurd h.1 (by decide)
    simp [lastVMatch, hnl, hq, ih h.2]

theorem searchP2_none_of_allId : ∀ l : List Char, l.all isIdChar = true →
    searchP2 l = none := by
  intro l
  induction l with
  | nil => intro _; rfl
  | cons c cs ih =>
    intro h
    have hyt : ∃ d, d ∈ ytLit ∧ isIdChar d = false := by decide
    have h2 := h
    simp only [List.all_cons, Bool.and_eq_true] at h2
    simp [searchP2, dropLit_none_of_allId _ hyt _ h, ih h2.2]

theorem tryLitsAt_isSome (lits : List (List Char)) (s : List Char) :
    (tryLitsAt lits s).isSome =
      lits.any (fun m => m.isPrefixOf s && idChunkAt (s.drop m.length)) := by
  induction lits with
  | nil => rfl
  | cons m ms ih =>
    simp only [tryLitsAt, List.any_cons]
    rw [dropLit_eq]
    by_cases h : m.isPrefixOf s = true
    · simp only [h, if_true]
      cases hi : idTake 11 (s.drop m.length) with
      | some g => simp [idChunkAt_eq, hi]
      | none => simp [idChunkAt_eq, hi, ih]
    · simp [h, ih]

theorem searchP1_isSome : ∀ s : List Char, (searchP1 s).isSome = specMarkerFrom s := by
  intro s
  induction s with
  | nil => rfl
  | cons c cs ih =>
    simp only [searchP1, specMarkerFrom]
    cases h : tryLitsAt p1Lits (c :: cs) with
    | some g =>
      have ht := tryLitsAt_isSome p1Lits (c :: cs)
      rw [h] at ht
      simp [← ht]
    | none =>
      have ht := tryLitsAt_isSome p1Lits (c :: cs)
      rw [h] at ht
      simp [← ht, ih]

theorem lastVMatch_isSome : ∀ s : List Char, (lastVMatch s).isSome = specVAfter s := by
  intro s
  induction s with
  | nil => rfl
  | cons c cs ih =>
    simp only [lastVMatch, specVAfter]
    by_cases hnl : c = '\n'
    · simp [hnl]
    · rw [if_neg hnl, if_neg hnl]
      cases h : lastVMatch cs with
      | some g =>
        rw [h] at ih
        simp [← ih]
      | none =>
        rw [h] at ih
        by_cases hq : c = '?' ∨ c = '&'
        · have hcb : (c == '?' || c == '&') = true := by
            rcases hq with h1 | h1 <;> simp [h1]
          rw [if_pos hq, dropLit_eq]
          by_cases hv : vEqLit.isPrefixOf cs = true
          · have hl2 : vEqLit.length = 2 := rfl
            simp [hv, hl2, idChunkAt_eq, hcb, ← ih]
          · simp [hv, hcb, ← ih]
        · have hcb : (c == '?' || c == '&') = false := by
            rw [not_or] at hq
            simp [hq.1, hq.2]
          simp [hq, hcb, ← ih]

theorem searchP2_isSome : ∀ s : List Char, (searchP2 s).isSome = specVParamFrom s := by
  intro s
  induction s with
  | nil => rfl
  | cons c cs ih =>
    simp only [searchP2, specVParamFrom]
    rw [dropLit_eq]
    by_cases h : ytLit.isPrefixOf (c :: cs) = true
    · simp only [h, if_true]
      have hlen : ytLit.length = 12 := rfl
      cases hm : lastVMatch ((c :: cs).drop ytLit.length) with
      | some g =>
        have hv := lastVMatch_isSome ((c :: cs).drop ytLit.length)
        rw [hm, hlen] at hv
        simp only [List.drop_succ_cons, Option.isSome_some] at hv
        simp [h, ← hv]
      | none =>
        have hv := lastVMatch_isSome ((c :: cs).drop ytLit.length)
        rw [hm, hlen] at hv
        simp only [List.drop_succ_cons, Option.isSome_none] at hv
        simp [h, ← hv, ih]
    · simp [h, ih]

theorem tryLitsAt_some_spec (lits : List (List Char)) :
    ∀ s g : List Char, tryLitsAt lits s = some g →
      g.length = 11 ∧ g.all isIdChar = true := by
  induction lits with
  | nil => intro s g h; simp [tryLitsAt] at h
  | cons m ms ih =>
    intro s g h
    simp only [tryLitsAt] at h
    split at h
    · rename_i rest hdrop
      split at h
      · rename_i g0 hid
        simp only [Option.some_inj] at h
        subst h
        exact (idTake_some 11 rest g0 hid).2
      · exact ih s g h
    · exact ih s g h

theorem searchP1_some_spec : ∀ s g : List Char, searchP1 s = some g →
    g.length = 11 ∧ g.all isIdChar = true := by
  intro s
  induction s with
  | nil => intro g h; simp [searchP1] at h
  | cons c cs ih =>
    intro g h
    simp only [searchP1] at h
    split at h
    · rename_i g0 ht
      simp only [Option.some_inj] at h
      subst h
      exact tryLitsAt_some_spec p1Lits (c :: cs) g0 ht
    · exact ih g h

theorem lastVMatch_some_spec : ∀ s g : List Char, lastVMatch s = some g →
    g.length = 11 ∧ g.all isIdChar = true := by
  intro s
  induction s with
  | nil => intro g h; simp [lastVMatch] at h
  | cons c cs ih =>
    intro g h
    simp only [lastVMatch] at h
    by_cases hnl : c = '\n'
    · simp [hnl] at h
    · rw [if_neg hnl] at h
      split at h
      · rename_i g0 hm
        simp only [Option.some_inj] at h
        subst h
        exact ih g0 hm
      · split at h
        · split at h
          · rename_i r hd
            exact (idTake_some 11 r g h).2
          · cases h
        · cases h

theorem searchP2_some_spec : ∀ s g : List Char, searchP2 s = some g →
    g.length = 11 ∧ g.all isIdChar = true := by
  intro s
  induction s with
  | nil => intro g h; simp [searchP2] at h
  | cons c cs ih =>
    intro g h
    simp only [searchP2] at h
    split at h
    · rename_i r hd
      split at h
      · rename_i g0 hm
        simp only [Option.some_inj] at h
        subst h
        exact lastVMatch_some_spec r g0 hm
      · exact ih g h
    · exact ih g h

-- ## The six canonical URL shapes, with an abstract embedded token

theorem take_all_id (l : List Char) (n : Nat) (h : l.all isIdChar = true) :
    (l.take n).all isIdChar = true := by
  rw [List.all_eq_true] at *
  exact fun x hx => h x (List.take_subset n l hx)

theorem idTake_take (id : List Char) (h1 : 11 ≤ id.length) (h2 : id.all isIdChar = true) :
    idTake 11 id = some (id.take 11) :=
  idTake_of_take 11 id (by rw [List.length_take]; omega) (take_all_id id 11 h2)

theorem canon_watch (id : List Char) (h1 : 11 ≤ id.length) (h2 : id.all isIdChar = true) :
    extract_video_id (String.mk ("https://www.youtube.com/watch?v=".data ++ id)) =
      .ok (String.mk (id.take 11)) := by
  have htk := idTake_take id h1 h2
  have hd : ("https://www.youtube.com/watch?v=").data =
      ['h','t','t','p','s',':','/','/','w','w','w','.','y','o','u','t','u','b','e','.','c','o','m','/','w','a','t','c','h','?','v','='] := rfl
  show (match searchP1 ("https://www.youtube.com/watch?v=".data ++ id) with
    | some g => Except.ok (String.mk g)
    | none => _) = _
  rw [hd]
  simp only [List.cons_append, List.nil_append]
  simp [searchP1, tryLitsAt, p1Lits, dropLit, htk]

theorem canon_youtube (id : List Char) (h1 : 11 ≤ id.length) (h2 : id.all isIdChar = true) :
    extract_video_id (String.mk ("https://youtu.be/".data ++ id)) =
      .ok (String.mk (id.take 11)) := by
  have htk := idTake_take id h1 h2
  have hd : ("https://youtu.be/").data =
      ['h','t','t','p','s',':','/','/','y','o','u','t','u','.','b','e','/'] := rfl
  show (match searchP1 ("https://youtu.be/".data ++ id) with
    | some g => Except.ok (String.mk g)
    | none => _) = _
  rw [hd]
  simp only [List.cons_append, List.nil_append]
  simp [searchP1, tryLitsAt, p1Lits, dropLit, htk]

theorem canon_embed (id : List Char) (h1 : 11 ≤ id.length) (h2 : id.all isIdChar = true) :
    extract_video_id (String.mk ("https://www.youtube.com/embed/".data ++ id)) =
      .ok (String.mk (id.take 11)) := by
  have htk := idTake_take id h1 h2
  have hd : ("https://www.youtube.com/embed/").data =
      ['h','t','t','p','s',':','/','/','w','w','w','.','y','o','u','t','u','b','e','.','c','o','m','/','e','m','b','e','d','/'] := rfl
  show (match searchP1 ("https://www.youtube.com/embed/".data ++ id) with
    | some g => Except.ok (String.mk g)
    | none => _) = _
  rw [hd]
  simp only [List.cons_append, List.nil_append]
  simp [searchP1, tryLitsAt, p1Lits, dropLit, htk]

theorem canon_v (id : List Char) (h1 : 11 ≤ id.length) (h2 : id.all isIdChar = true) :
    extract_video_id (String.mk ("https://www.youtube.com/v/".data ++ id)) =
      .ok (String.mk (id.take 11)) := by
  have htk := idTake_take id h1 h2
  have hd : ("https://www.youtube.com/v/").data =
      ['h','t','t','p','s',':','/','/','w','w','w','.','y','o','u','t','u','b','e','.','c','o','m','/','v','/'] := rfl
  show (match searchP1 ("https://www.youtube.com/v/".data ++ id) with
    | some g => Except.ok (String.mk g)
    | none => _) = _
  rw [hd]
  simp only [List.cons_append, List.nil_append]
  simp [searchP1, tryLitsAt, p1Lits, dropLit, htk]

theorem canon_shorts (id : List Char) (h1 : 11 ≤ id.length) (h2 : id.all isIdChar = true) :
    extract_video_id (String.mk ("https://www.youtube.com/shorts/".data ++ id)) =
      .ok (String.mk (id.take 11)) := by
  have htk := idTake_take id h1 h2
  have hd : ("https://www.youtube.com/shorts/").data =
      ['h','t','t','p','s',':','/','/','w','w','w','.','y','o','u','t','u','b','e','.','c','o','m','/','s','h','o','r','t','s','/'] := rfl
  show (match searchP1 ("https://www.youtube.com/shorts/".data ++ id) with
    | some g => Except.ok (String.mk g)
    | none => _) = _
  rw [hd]
  simp only [List.cons_append, List.nil_append]
  simp [searchP1, tryLitsAt, p1Lits, dropLit, htk]

theorem canon_vparam (id : List Char) (h1 : 11 ≤ id.length) (h2 : id.all isIdChar = true) :
    extract_video_id (String.mk ("https://www.youtube.com/playlist?list=PL123&v=".data ++ id)) =
      .ok (String.mk (id.take 11)) := by
  have htk := idTake_take id h1 h2
  have hs1 := searchP1_none_of_allId id h2
  have hlv := lastVMatch_none_of_allId id h2
  have hd : ("https://www.youtube.com/playlist?list=PL123&v=").data =
      ['h','t','t','p','s',':','/','/','w','w','w','.','y','o','u','t','u','b','e','.','c','o','m','/','p','l','a','y','l','i','s','t','?','l','i','s','t','=','P','L','1','2','3','&','v','='] := rfl
  show (match searchP1 ("https://www.youtube.com/playlist?list=PL123&v=".data ++ id) with
    | some g => Except.ok (String.mk g)
    | none =>
      match searchP2 ("https://www.youtube.com/playlist?list=PL123&v=".data ++ id) with
      | some g => Except.ok (String.mk g)
      | none => Except.error "No valid YouTube video ID found in URL") = _
  rw [hd]
  simp only [List.cons_append, List.nil_append]
  simp [searchP1, searchP2, tryLitsAt, p1Lits, dropLit, lastVMatch, ytLit, vEqLit, htk, hs1, hlv]

-- ## Claims C1 and C10 (VideoIdExtractor)

/-- C1 (amended): for each of the recognized URL shapes — the five markers
`youtube.com/watch?v=`, `youtu.be/`, `youtube.com/embed/`, `youtube.com/v/`,
`youtube.com/shorts/` immediately followed by the token, and a `?v=` or `&v=`
query parameter occurring after `youtube.com/` — extract returns exactly the
embedded 11-character [A-Za-z0-9_-] token on the canonical URLs; whenever some
recognized pattern occurs anywhere in the URL, extract succeeds with an
11-character token of that alphabet (matchers tried in fixed priority order,
first match wins); and whenever no recognized pattern occurs, extract fails
with the InvalidUrl message. -/
theorem extract_contract (id : List Char) (h1 : id.length = 11)
    (h2 : id.all isIdChar = true) :
    (extract_video_id (String.mk ("https://www.youtube.com/watch?v=".data ++ id)) =
        .ok (String.mk id)
      ∧ extract_video_id (String.mk ("https://youtu.be/".data ++ id)) =
        .ok (String.mk id)
      ∧ extract_video_id (String.mk ("https://www.youtube.com/embed/".data ++ id)) =
        .ok (String.mk id)
      ∧ extract_video_id (String.mk ("https://www.youtube.com/v/".data ++ id)) =
        .ok (String.mk id)
      ∧ extract_video_id (String.mk ("https://www.youtube.com/shorts/".data ++ id)) =
        .ok (String.mk id)
      ∧ extract_video_id (String.mk ("https://www.youtube.com/playlist?list=PL123&v=".data ++ id)) =
        .ok (String.mk id))
    ∧ (∀ url : String, specHasPattern url = true →
        ∃ v : String, extract_video_id url = .ok v ∧ v.data.length = 11 ∧
          v.data.all isIdChar = true)
    ∧ (∀ url : String, specHasPattern url = false →
        extract_video_id url = .error "No valid YouTube video ID found in URL") := by
  have hle : 11 ≤ id.length := le_of_eq h1.symm
  have htake : id.take 11 = id := by rw [← h1, List.take_length]
  refine ⟨⟨?_, ?_, ?_, ?_, ?_, ?_⟩, ?_, ?_⟩
  · simpa [htake] using canon_watch id hle h2
  · simpa [htake] using canon_youtube id hle h2
  · simpa [htake] using canon_embed id hle h2
  · simpa [htake] using canon_v id hle h2
  · simpa [htake] using canon_shorts id hle h2
  · simpa [htake] using canon_vparam id hle h2
  · intro url hp
    rw [specHasPattern, Bool.or_eq_true] at hp
    cases hs : searchP1 url.data with
    | some g =>
      exact ⟨String.mk g, by simp [extract_video_id, hs],
        (searchP1_some_spec _ g hs).1, (searchP1_some_spec _ g hs).2⟩
    | none =>
      have hm : specMarkerFrom url.data = false := by
        rw [← searchP1_isSome, hs]; rfl
      rcases hp with hp | hp
      · rw [hm] at hp; cases hp
      · have hiss : (searchP2 url.data).isSome = true := by
          rw [searchP2_isSome]; exact hp
        cases hs2 : searchP2 url.data with
        | none => rw [hs2] at hiss; cases hiss
        | some g =>
          exact ⟨String.mk g, by simp [extract_video_id, hs, hs2],
            (searchP2_some_spec _ g hs2).1, (searchP2_some_spec _ g hs2).2⟩
  · intro url hp
    rw [specHasPattern, Bool.or_eq_false_iff] at hp
    have hs1 : searchP1 url.data = none := by
      cases hs : searchP1 url.data with
      | none => rfl
      | some g =>
        have := searchP1_isSome url.data
        rw [hs, hp.1] at this
        cases this
    have hs2 : searchP2 url.data = none := by
      cases hs : searchP2 url.data with
      | none => rfl
      | some g =>
        have := searchP2_isSome url.data
        rw [hs, hp.2] at this
        cases this
    simp [extract_video_id, hs1, hs2]

/-- C1 witness: the amended contract applied to the token dQw4w9WgXcQ. -/
theorem extract_contract_witness :
    extract_video_id (String.mk ("https://www.youtube.com/watch?v=".data ++ "dQw4w9WgXcQ".data)) =
      .ok (String.mk "dQw4w9WgXcQ".data) :=
  (extract_contract "dQw4w9WgXcQ".data (by decide) (by decide)).1.1

/-- C1 counterexample: a non-YouTube URL carrying a `v=` query parameter with a
valid 11-character token is not recognized — extract fails with InvalidUrl,
although the claim as stated (any URL containing a `v=` query parameter
anywhere) demands that the token be returned. -/
theorem extract_vparam_counterexample :
    ("https://example.com/page?v=dQw4w9WgXcQ" : String) =
        "https://example.com/page?v=" ++ "dQw4w9WgXcQ"
    ∧ ("dQw4w9WgXcQ" : String).data.length = 11
    ∧ ("dQw4w9WgXcQ" : String).data.all isIdChar = true
    ∧ extract_video_id "https://example.com/page?v=dQw4w9WgXcQ" =
        .error "No valid YouTube video ID found in URL" :=
  ⟨rfl, by decide, by decide, rfl⟩

/-- C10: on every recognized URL shape whose embedded token is longer than 11
characters of [A-Za-z0-9_-], extract does not fail: it returns the first 11
characters of the token — the 11-character check is a prefix match, not an
exact-length match. -/
theorem extract_long_token (id : List Char) (h1 : 11 < id.length)
    (h2 : id.all isIdChar = true) :
    (extract_video_id (String.mk ("https://www.youtube.com/watch?v=".data ++ id)) =
        .ok (String.mk (id.take 11))
      ∧ extract_video_id (String.mk ("https://youtu.be/".data ++ id)) =
        .ok (String.mk (id.take 11))
      ∧ extract_video_id (String.mk ("https://www.youtube.com/embed/".data ++ id)) =
        .ok (String.mk (id.take 11))
      ∧ extract_video_id (String.mk ("https://www.youtube.com/v/".data ++ id)) =
        .ok (String.mk (id.take 11))
      ∧ extract_video_id (String.mk ("https://www.youtube.com/shorts/".data ++ id)) =
        .ok (String.mk (id.take 11))
      ∧ extract_video_id (String.mk ("https://www.youtube.com/playlist?list=PL123&v=".data ++ id)) =
        .ok (String.mk (id.take 11)))
    ∧ (id.take 11).length = 11 := by
  have hle : 11 ≤ id.length := le_of_lt h1
  exact ⟨⟨canon_watch id hle h2, canon_youtube id hle h2, canon_embed id hle h2,
    canon_v id hle h2, canon_shorts id hle h2, canon_vparam id hle h2⟩,
    by rw [List.length_take]; omega⟩

/-- C10 witness: a 14-character token yields its first 11 characters. -/
theorem extract_long_token_witness :
    extract_video_id (String.mk ("https://www.youtube.com/watch?v=".data ++ "dQw4w9WgXcQxyz".data)) =
      .ok (String.mk ("dQw4w9WgXcQxyz".data.take 11)) :=
  (extract_long_token "dQw4w9WgXcQxyz".data (by decide) (by decide)).1.1

-- ## Lemmas about the time formatter

theorem toString_intCast (n : Nat) : toString ((n : Int)) = toString n := rfl

theorem pad2i_natCast (n : Nat) : pad2i (n : Int) = pad2 n := by
  unfold pad2i pad2
  by_cases h : n < 10
  · rw [if_pos ⟨by exact_mod_cast Nat.zero_le n, by exact_mod_cast h⟩, if_pos h,
      toString_intCast]
  · have hc : ¬ ((0 : Int) ≤ (n : Int) ∧ (n : Int) < 10) := fun hcc =>
      h (by exact_mod_cast hcc.2)
    rw [if_neg hc, if_neg h, toString_intCast]

theorem cast3600 : ((3600 : Nat) : Int) = (3600 : Int) := rfl

theorem cast60 : ((60 : Nat) : Int) = (60 : Int) := rfl

theorem format_time_eq (q : ℚ) (hq : 0 ≤ q) :
    format_time q = specFormat (q.num.tdiv q.den).toNat := by
  have hnum : 0 ≤ q.num := Rat.num_nonneg.mpr hq
  obtain ⟨m, hm⟩ := Int.eq_ofNat_of_zero_le hnum
  have ht : q.num.tdiv (q.den : Int) = ((m / q.den : Nat) : Int) := by
    rw [hm, Int.ofNat_tdiv]
  simp only [format_time, ht]
  have h1 : ((m / q.den : Nat) : Int).fdiv 3600 = ((m / q.den / 3600 : Nat) : Int) := by
    rw [← cast3600, ← Int.ofNat_fdiv]
  have h2 : ((m / q.den : Nat) : Int).fmod 3600 = ((m / q.den % 3600 : Nat) : Int) := by
    rw [← cast3600, ← Int.ofNat_fmod]
  have h3 : ((m / q.den % 3600 : Nat) : Int).fdiv 60 =
      ((m / q.den % 3600 / 60 : Nat) : Int) := by
    rw [← cast60, ← Int.ofNat_fdiv]
  have h4 : ((m / q.den : Nat) : Int).fmod 60 = ((m / q.den % 60 : Nat) : Int) := by
    rw [← cast60, ← Int.ofNat_fmod]
  have h5 : ((m / q.den : Nat) : Int).toNat = m / q.den := Int.toNat_natCast _
  rw [h1, h2, h3, h4, h5]
  unfold specFormat
  by_cases hz : m / q.den / 3600 = 0
  · rw [if_pos hz]
    have hneg : ¬ (0 : Int) < ((m / q.den / 3600 : Nat) : Int) := by
      rw [hz]; exact lt_irrefl 0
    rw [if_neg hneg, pad2i_natCast, pad2i_natCast]
  · rw [if_neg hz]
    have hpos : (0 : Int) < ((m / q.den / 3600 : Nat) : Int) := by
      exact_mod_cast Nat.pos_of_ne_zero hz
    rw [if_pos hpos, pad2i_natCast, pad2i_natCast, pad2i_natCast]

theorem tdiv_eq_floor (q : ℚ) (hq : 0 ≤ q) : q.num.tdiv q.den = ⌊q⌋ := by
  rw [Rat.floor_def]
  exact Int.tdiv_eq_ediv (Rat.num_nonneg.mpr hq) (by exact_mod_cast Nat.zero_le q.den)

-- two-digit rendering of pad2 below 100, and digit-order facts

theorem pad2_data_fin : ∀ i : Fin 100,
    (pad2 i.val).data = [Nat.digitChar (i.val / 10), Nat.digitChar (i.val % 10)] := by
  decide

theorem pad2_data (n : Nat) (h : n < 100) :
    (pad2 n).data = [Nat.digitChar (n / 10), Nat.digitChar (n % 10)] :=
  pad2_data_fin ⟨n, h⟩

theorem digitChar_lt_fin : ∀ i j : Fin 10,
    i.val < j.val → Nat.digitChar i.val < Nat.digitChar j.val := by
  decide

-- lexicographic helper lemmas on character lists

theorem lex_le_cons (a : Char) (l1 l2 : List Char) (h : l1 < l2 ∨ l1 = l2) :
    (a :: l1) < (a :: l2) ∨ a :: l1 = a :: l2 := by
  rcases h with h | h
  · exact Or.inl (List.Lex.cons h)
  · exact Or.inr (by rw [h])

theorem pad2_lex (x y : Nat) (hx : x < 100) (hy : y < 100) (r1 r2 : List Char)
    (h : x < y ∨ (x = y ∧ (r1 < r2 ∨ r1 = r2))) :
    ((pad2 x).data ++ r1) < ((pad2 y).data ++ r2) ∨
      (pad2 x).data ++ r1 = (pad2 y).data ++ r2 := by
  rw [pad2_data x hx, pad2_data y hy]
  simp only [List.cons_append, List.nil_append]
  rcases h with h | ⟨rfl, hr⟩
  · have hdig : x / 10 < y / 10 ∨ (x / 10 = y / 10 ∧ x % 10 < y % 10) := by omega
    rcases hdig with hd | ⟨hd, hmod⟩
    · have hch : Nat.digitChar (x / 10) < Nat.digitChar (y / 10) :=
        digitChar_lt_fin ⟨x / 10, by omega⟩ ⟨y / 10, by omega⟩ hd
      exact Or.inl (List.Lex.rel hch)
    · have hch : Nat.digitChar (x % 10) < Nat.digitChar (y % 10) :=
        digitChar_lt_fin ⟨x % 10, by omega⟩ ⟨y % 10, by omega⟩ hmod
      rw [hd]
      exact Or.inl (List.Lex.cons (List.Lex.rel hch))
  · exact lex_le_cons _ _ _ (lex_le_cons _ _ _ hr)

theorem colon_data : (":" : String).data = [':'] := rfl

theorem specFormat_data_mm (t : Nat) (h : t < 3600) :
    (specFormat t).data =
      (pad2 (t % 3600 / 60)).data ++ (':' :: (pad2 (t % 60)).data) := by
  rw [specFormat, if_pos (by omega : t / 3600 = 0)]
  rw [String.data_append, String.data_append, colon_data]
  simp [List.append_assoc]

theorem specFormat_data_hh (t : Nat) (h : ¬ t / 3600 = 0) :
    (specFormat t).data =
      (pad2 (t / 3600)).data ++
        (':' :: ((pad2 (t % 3600 / 60)).data ++ (':' :: (pad2 (t % 60)).data))) := by
  rw [specFormat, if_neg h]
  rw [String.data_append, String.data_append, String.data_append, String.data_append,
    colon_data]
  simp [List.append_assoc]

theorem specFormat_mono_mm (a b : Nat) (hab : a ≤ b) (hb : b < 3600) :
    (specFormat a).data < (specFormat b).data ∨
      (specFormat a).data = (specFormat b).data := by
  have ha : a < 3600 := lt_of_le_of_lt hab hb
  rw [specFormat_data_mm a ha, specFormat_data_mm b hb]
  have hma : a % 3600 = a := by omega
  have hmb : b % 3600 = b := by omega
  rw [hma, hmb]
  apply pad2_lex _ _ (by omega) (by omega)
  by_cases hdiv : a / 60 = b / 60
  · refine Or.inr ⟨hdiv, ?_⟩
    apply lex_le_cons
    rcases Nat.lt_or_ge (a % 60) (b % 60) with hlt | hge
    · have := pad2_lex (a % 60) (b % 60) (by omega) (by omega) [] [] (Or.inl hlt)
      simpa using this
    · have heq : a % 60 = b % 60 := by omega
      rw [heq]
      exact Or.inr rfl
  · exact Or.inl (by omega)

theorem specFormat_mono_hh (a b : Nat) (h1 : 3600 ≤ a) (hab : a ≤ b)
    (hb : b < 360000) :
    (specFormat a).data < (specFormat b).data ∨
      (specFormat a).data = (specFormat b).data := by
  have hza : ¬ a / 3600 = 0 := by omega
  have hzb : ¬ b / 3600 = 0 := by omega
  rw [specFormat_data_hh a hza, specFormat_data_hh b hzb]
  apply pad2_lex _ _ (by omega) (by omega)
  by_cases hdivh : a / 3600 = b / 3600
  · refine Or.inr ⟨hdivh, ?_⟩
    apply lex_le_cons
    apply pad2_lex _ _ (by omega) (by omega)
    by_cases hdivm : a % 3600 / 60 = b % 3600 / 60
    · refine Or.inr ⟨hdivm, ?_⟩
      apply lex_le_cons
      rcases Nat.lt_or_ge (a % 60) (b % 60) with hlt | hge
      · have := pad2_lex (a % 60) (b % 60) (by omega) (by omega) [] [] (Or.inl hlt)
        simpa using this
      · have heq : a % 60 = b % 60 := by omega
        rw [heq]
        exact Or.inr rfl
    · exact Or.inl (by omega)
  · exact Or.inl (by omega)

-- ## Claims C4 and C5 (TimeFormatter)

/-- C4: on every non-negative input, _format_time truncates to whole seconds
(discarding the fractional part), decomposes by integer division/modulo 3600
and 60, renders MM:SS when the hours component is zero and HH:MM:SS otherwise,
each field zero-padded to two digits; in particular format(0) = "00:00",
format(65) = "01:05", format(3661) = "01:01:01", and format(59.9) = "00:59"
(truncation, not rounding). -/
theorem format_time_contract (q : ℚ) (hq : 0 ≤ q) :
    format_time q = specFormat (Int.toNat ⌊q⌋)
    ∧ format_time 0 = "00:00"
    ∧ format_time 65 = "01:05"
    ∧ format_time 3661 = "01:01:01"
    ∧ format_time (59.9 : ℚ) = "00:59" := by
  refine ⟨?_, by decide, by decide, by decide, ?_⟩
  · rw [format_time_eq q hq, tdiv_eq_floor q hq]
  · rw [show (59.9 : ℚ) = Rat.divInt 599 10 by rw [Rat.divInt_eq_div]; norm_num]
    decide

/-- C4 witness: the contract applied at 65 seconds. -/
theorem format_time_contract_witness :
    format_time 65 = specFormat (Int.toNat ⌊(65 : ℚ)⌋) :=
  (format_time_contract 65 (by decide)).1

/-- C5 (amended): _format_time is a total function on the rationals and is
ordering-preserving within each fixed rendering width: for all 0 ≤ a ≤ b with
either b < 3600 (both sides render as MM:SS) or 3600 ≤ a and b < 360000 (both
sides render as HH:MM:SS with two-digit hours), the rendered string for a is
ordered at or before the rendered string for b.  Across the MM:SS/HH:MM:SS
boundary lexicographic order is not preserved. -/
theorem format_time_mono (a b : ℚ) (h0 : 0 ≤ a) (hab : a ≤ b)
    (hreg : b < 3600 ∨ (3600 ≤ a ∧ b < 360000)) :
    strLe (format_time a) (format_time b) := by
  have h0b : 0 ≤ b := le_trans h0 hab
  unfold strLe
  rw [format_time_eq a h0, format_time_eq b h0b, tdiv_eq_floor a h0,
    tdiv_eq_floor b h0b]
  have hfl : ⌊a⌋ ≤ ⌊b⌋ := Int.floor_mono hab
  have hfl0 : 0 ≤ ⌊a⌋ := Int.le_floor.mpr (by exact_mod_cast h0)
  have hmn : ⌊a⌋.toNat ≤ ⌊b⌋.toNat := by omega
  rcases hreg with hb | ⟨ha, hb⟩
  · have hbf : ⌊b⌋ < 3600 := Int.floor_lt.mpr (by exact_mod_cast hb)
    exact specFormat_mono_mm _ _ hmn (by omega)
  · have haf : (3600 : ℤ) ≤ ⌊a⌋ := Int.le_floor.mpr (by exact_mod_cast ha)
    have hbf : ⌊b⌋ < 360000 := Int.floor_lt.mpr (by exact_mod_cast hb)
    exact specFormat_mono_hh _ _ (by omega) hmn (by omega)

/-- C5 witness: the amended ordering property applied at 59 and 60 seconds. -/
theorem format_time_mono_witness : strLe (format_time 59) (format_time 60) :=
  format_time_mono 59 60 (by decide) (by decide) (Or.inl (by decide))

/-- C5 counterexample: 3599 ≤ 3600 and both inputs are non-negative, yet the
rendering of 3599 ("59:59") is lexicographically after the rendering of 3600
("01:00:00"), so the claimed unrestricted order preservation fails at the
MM:SS/HH:MM:SS boundary. -/
theorem format_time_mono_counterexample :
    (0 : ℚ) ≤ 3599
    ∧ (3599 : ℚ) ≤ 3600
    ∧ format_time 3599 = "59:59"
    ∧ format_time 3600 = "01:00:00"
    ∧ ¬ strLe (format_time 3599) (format_time 3600) := by
  refine ⟨by decide, by decide, by decide, by decide, ?_⟩
  unfold strLe
  decide

-- ## Lemmas about the orchestrator

theorem lookupT_extract_error {α : Type}
    (fT : String → Except String (List (RawSegment α)))
    (fM : String → Except String VideoMetadata) (url e : String)
    (he : extract_video_id url = .error e) :
    lookupT fT fM url = (.error ("Invalid YouTube URL: " ++ e), 0) := by
  unfold lookupT
  rw [he]

theorem lookupT_transcript_ok {α : Type}
    (fT : String → Except String (List (RawSegment α)))
    (fM : String → Except String VideoMetadata) (url vid : String)
    (raw : List (RawSegment α)) (he : extract_video_id url = .ok vid)
    (htr : fT vid = .ok raw) :
    lookupT fT fM url = (.transcript vid (raw.map fmtSegment), 0) := by
  unfold lookupT
  rw [he]
  simp only [htr]

theorem lookupT_fallback_ok {α : Type}
    (fT : String → Except String (List (RawSegment α)))
    (fM : String → Except String VideoMetadata) (url vid e : String)
    (md : VideoMetadata) (he : extract_video_id url = .ok vid)
    (htr : fT vid = .error e) (hmd : fM vid = .ok md) :
    lookupT fT fM url = (.details vid md, 1) := by
  unfold lookupT
  rw [he]
  simp only [htr, hmd]

theorem lookupT_fallback_error {α : Type}
    (fT : String → Except String (List (RawSegment α)))
    (fM : String → Except String VideoMetadata) (url vid e em : String)
    (he : extract_video_id url = .ok vid)
    (htr : fT vid = .error e) (hmd : fM vid = .error em) :
    lookupT fT fM url = (.error ("Failed to process request: " ++ em), 1) := by
  unfold lookupT
  rw [he]
  simp only [htr, hmd]

-- ## Claims C2, C3, C6 (LookupOrchestrator)

/-- C2: for all fetch oracles and every URL the orchestrator is total and its
result is exactly one of the three LookupResult shapes; a transcript result is
always the whole backend transcript mapped through the formatter (never a
partial mix); and the input "not a url" yields exactly the claimed error
object, independently of the oracles. -/
theorem lookup_total_shape (α : Type)
    (fT : String → Except String (List (RawSegment α)))
    (fM : String → Except String VideoMetadata) (url : String) :
    ((∃ v segs, get_youtube_video_transcript fT fM url = .transcript v segs)
      ∨ (∃ v md, get_youtube_video_transcript fT fM url = .details v md)
      ∨ (∃ e, get_youtube_video_transcript fT fM url = .error e))
    ∧ (∀ v segs, get_youtube_video_transcript fT fM url = .transcript v segs →
        ∃ raw, fT v = .ok raw ∧ segs = raw.map fmtSegment)
    ∧ get_youtube_video_transcript fT fM "not a url" =
        .error "Invalid YouTube URL: No valid YouTube video ID found in URL" := by
  refine ⟨?_, ?_, ?_⟩
  · cases h : get_youtube_video_transcript fT fM url with
    | transcript v segs => exact Or.inl ⟨v, segs, rfl⟩
    | details v md => exact Or.inr (Or.inl ⟨v, md, rfl⟩)
    | error e => exact Or.inr (Or.inr ⟨e, rfl⟩)
  · intro v segs h
    unfold get_youtube_video_transcript at h
    cases he : extract_video_id url with
    | error e =>
      rw [lookupT_extract_error fT fM url e he] at h
      cases h
    | ok vid =>
      cases htr : fT vid with
      | ok raw =>
        rw [lookupT_transcript_ok fT fM url vid raw he htr] at h
        simp only [LookupResult.transcript.injEq] at h
        exact ⟨raw, by rw [← h.1]; exact htr, h.2.symm⟩
      | error etr =>
        cases hmd : fM vid with
        | ok md =>
          rw [lookupT_fallback_ok fT fM url vid etr md he htr hmd] at h
          cases h
        | error em =>
          rw [lookupT_fallback_error fT fM url vid etr em he htr hmd] at h
          cases h
  · have he : extract_video_id "not a url" =
        .error "No valid YouTube video ID found in URL" := rfl
    unfold get_youtube_video_transcript
    rw [lookupT_extract_error fT fM _ _ he]
    rfl

/-- C2 witness: the "not a url" scenario under concrete oracles. -/
theorem lookup_total_shape_witness :
    get_youtube_video_transcript
      (fun _ => (Except.error "b" : Except String (List (RawSegment Unit))))
      (fun _ => Except.error "m") "not a url" =
      .error "Invalid YouTube URL: No valid YouTube video ID found in URL" :=
  (lookup_total_shape Unit (fun _ => Except.error "b")
    (fun _ => Except.error "m") "anything").2.2

/-- C3: whenever the transcript fetch fails after a successful extraction, the
orchestrator invokes the metadata fetcher exactly once and returns the details
variant on its success, or the "Failed to process request: " error on its
failure; it never returns a transcript variant on this path. -/
theorem lookup_fallback (α : Type)
    (fT : String → Except String (List (RawSegment α)))
    (fM : String → Except String VideoMetadata) (url vid e : String)
    (he : extract_video_id url = .ok vid) (htr : fT vid = .error e) :
    (lookupT fT fM url).2 = 1
    ∧ (∀ md, fM vid = .ok md → lookupT fT fM url = (.details vid md, 1))
    ∧ (∀ em, fM vid = .error em →
        lookupT fT fM url = (.error ("Failed to process request: " ++ em), 1))
    ∧ (∀ v segs, (lookupT fT fM url).1 ≠ .transcript v segs) := by
  refine ⟨?_, ?_, ?_, ?_⟩
  · cases hmd : fM vid with
    | ok md => rw [lookupT_fallback_ok fT fM url vid e md he htr hmd]
    | error em => rw [lookupT_fallback_error fT fM url vid e em he htr hmd]
  · intro md hmd
    exact lookupT_fallback_ok fT fM url vid e md he htr hmd
  · intro em hmd
    exact lookupT_fallback_error fT fM url vid e em he htr hmd
  · intro v segs hcon
    cases hmd : fM vid with
    | ok md =>
      rw [lookupT_fallback_ok fT fM url vid e md he htr hmd] at hcon
      cases hcon
    | error em =>
      rw [lookupT_fallback_error fT fM url vid e em he htr hmd] at hcon
      cases hcon

/-- C3 witness: the fallback applied under concrete oracles. -/
theorem lookup_fallback_witness :
    (@lookupT Unit (fun _ => Except.error "boom")
      (fun _ => Except.ok ⟨"t", "d", "c", "p", "u", "1", "2", "3"⟩)
      "https://youtu.be/dQw4w9WgXcQ").2 = 1 :=
  (lookup_fallback Unit (fun _ => Except.error "boom")
    (fun _ => Except.ok ⟨"t", "d", "c", "p", "u", "1", "2", "3"⟩)
    "https://youtu.be/dQw4w9WgXcQ" "dQw4w9WgXcQ" "boom" rfl rfl).1

/-- C6: when the transcript fetch succeeds, the orchestrator returns the
transcript variant whose segments appear in the order of the backend, with every
start field replaced by its formatted display string and all other fields of
every segment passed through unchanged. -/
theorem lookup_transcript (α : Type)
    (fT : String → Except String (List (RawSegment α)))
    (fM : String → Except String VideoMetadata) (url vid : String)
    (raw : List (RawSegment α)) (he : extract_video_id url = .ok vid)
    (htr : fT vid = .ok raw) :
    get_youtube_video_transcript fT fM url = .transcript vid (raw.map fmtSegment)
    ∧ (raw.map fmtSegment).length = raw.length
    ∧ (∀ i : Nat, ((raw.map fmtSegment)[i]?).map FmtSegment.fields =
        (raw[i]?).map RawSegment.fields)
    ∧ (∀ i : Nat, ((raw.map fmtSegment)[i]?).map FmtSegment.start =
        (raw[i]?).map (fun s => format_time s.start)) := by
  refine ⟨?_, by simp, ?_, ?_⟩
  · unfold get_youtube_video_transcript
    rw [lookupT_transcript_ok fT fM url vid raw he htr]
  · intro i
    rw [List.getElem?_map]
    cases raw[i]? with
    | none => rfl
    | some s => rfl
  · intro i
    rw [List.getElem?_map]
    cases raw[i]? with
    | none => rfl
    | some s => rfl

/-- C6 witness: one concrete segment is formatted in place. -/
theorem lookup_transcript_witness :
    get_youtube_video_transcript
      (fun _ => (Except.ok [⟨5, [("text", "Hi")]⟩] :
        Except String (List (RawSegment String))))
      (fun _ => Except.error "m") "https://youtu.be/dQw4w9WgXcQ" =
      .transcript "dQw4w9WgXcQ" ([⟨5, [("text", "Hi")]⟩].map fmtSegment) :=
  (lookup_transcript String (fun _ => Except.ok [⟨5, [("text", "Hi")]⟩])
    (fun _ => Except.error "m") "https://youtu.be/dQw4w9WgXcQ" "dQw4w9WgXcQ"
    [⟨5, [("text", "Hi")]⟩] rfl rfl).1

-- ## Claim C7 (MetadataFetcher)

/-- C7: get_video_details fails with the backend-error message on any
non-success response status, fails with the video-not-found message when the
response carries zero items, and otherwise returns the eight metadata fields
extracted and defaulted independently (empty string for snippet and
content-details fields, "0" for statistics counts). -/
theorem video_details_contract (resp : YtResponse) :
    (resp.status ≠ 200 →
      get_video_details resp =
        .error ("YouTube API request failed with status " ++ toString resp.status))
    ∧ (resp.status = 200 → resp.items = [] →
      get_video_details resp = .error "Video not found or unavailable")
    ∧ (∀ item rest, resp.status = 200 → resp.items = item :: rest →
      get_video_details resp = .ok
        ⟨dget item.snippet "title" "", dget item.snippet "description" "",
         dget item.snippet "channelTitle" "", dget item.snippet "publishedAt" "",
         dget item.contentDetails "duration" "", dget item.statistics "viewCount" "0",
         dget item.statistics "likeCount" "0",
         dget item.statistics "commentCount" "0"⟩) := by
  refine ⟨?_, ?_, ?_⟩
  · intro h
    unfold get_video_details
    rw [if_pos h]
  · intro h hi
    unfold get_video_details
    rw [if_neg (by simp [h]), hi]
  · intro item rest h hi
    unfold get_video_details
    rw [if_neg (by simp [h]), hi]

/-- C7 witness: a 404 response yields the backend error message. -/
theorem video_details_contract_witness :
    get_video_details ⟨404, []⟩ =
      .error ("YouTube API request failed with status " ++ toString (404 : Nat)) :=
  (video_details_contract ⟨404, []⟩).1 (by decide)

-- ## Claims C8 and C9 (tool-call boundary)

/-- C8 (amended): at the tool-call boundary a missing url argument yields the
plain text "Error: URL parameter is required" rather than a LookupResult
shape; for every supplied NON-EMPTY url the response body is the JSON
serialization of the LookupResult pretty-printed with 2-space indentation; and
on the concrete input "not a url" the full pipeline produces exactly the
2-space-indented error object.  (A supplied empty url is answered like a
missing one, see the counterexample.) -/
theorem tool_call_contract (α : Type) (r : α → String)
    (f : String → LookupResult α) (args : List (String × String))
    (fT : String → Except String (List (RawSegment α)))
    (fM : String → Except String VideoMetadata) :
    (argGet args "url" = none →
      handle_call_tool r f "get_youtube_video_transcript" args =
        ([.text "Error: URL parameter is required"], false))
    ∧ (∀ url, argGet args "url" = some url → url ≠ "" →
      handle_call_tool r f "get_youtube_video_transcript" args =
        ([.text (json_dumps_indent2 r (resultJson (f url)))], true))
    ∧ handle_call_tool r (get_youtube_video_transcript fT fM)
        "get_youtube_video_transcript" [("url", "not a url")] =
        ([.text "\x7b\n  \"error\": \"Invalid YouTube URL: No valid YouTube video ID found in URL\"\n\x7d"],
          true) := by
  refine ⟨?_, ?_, ?_⟩
  · intro h
    unfold handle_call_tool
    rw [if_pos rfl, h]
  · intro url h hne
    unfold handle_call_tool
    rw [if_pos rfl, h]
    simp only [if_neg hne]
  · have he : extract_video_id "not a url" =
        .error "No valid YouTube video ID found in URL" := rfl
    show ([ToolContent.text (json_dumps_indent2 r (resultJson
        (get_youtube_video_transcript fT fM "not a url")))], true) = _
    unfold get_youtube_video_transcript
    rw [lookupT_extract_error fT fM _ _ he]
    rfl

/-- C8 witness: the pipeline response for "not a url" under concrete oracles. -/
theorem tool_call_contract_witness :
    handle_call_tool (fun s : String => s)
      (get_youtube_video_transcript (fun _ => Except.error "b")
        (fun _ => Except.error "m"))
      "get_youtube_video_transcript" [("url", "not a url")] =
      ([.text "\x7b\n  \"error\": \"Invalid YouTube URL: No valid YouTube video ID found in URL\"\n\x7d"],
        true) :=
  (tool_call_contract String (fun s => s)
    (fun _ => LookupResult.error "x") [] (fun _ => Except.error "b")
    (fun _ => Except.error "m")).2.2

/-- C8 counterexample: a supplied-but-empty url is answered with the plain text
error and not with the JSON serialization of the LookupResult for that url, so
"for every supplied url, the response body is the JSON serialization" fails at
url = "". -/
theorem tool_call_counterexample :
    handle_call_tool (fun s : String => s)
      (fun _ => (LookupResult.error "x" : LookupResult String))
      "get_youtube_video_transcript" [("url", "")] =
      ([.text "Error: URL parameter is required"], false)
    ∧ ToolContent.text "Error: URL parameter is required" ≠
      ToolContent.text (json_dumps_indent2 (fun s : String => s)
        (resultJson (LookupResult.error "x" : LookupResult String))) :=
  ⟨rfl, by decide⟩

/-- C9: a url argument that is present but equal to the empty string is treated
exactly like a missing url: the plain text error is returned, the
lookup-invoked flag stays false, and the response coincides with the
missing-argument response, for every lookup function. -/
theorem tool_call_empty_url (α : Type) (r : α → String)
    (f : String → LookupResult α) :
    handle_call_tool r f "get_youtube_video_transcript" [("url", "")] =
      ([.text "Error: URL parameter is required"], false)
    ∧ handle_call_tool r f "get_youtube_video_transcript" [("url", "")] =
      handle_call_tool r f "get_youtube_video_transcript" [] := by
  exact ⟨rfl, rfl⟩

/-- C9 witness: the empty-url behaviour under a concrete lookup function. -/
theorem tool_call_empty_url_witness :
    handle_call_tool (fun s : String => s)
      (fun _ => (LookupResult.error "x" : LookupResult String))
      "get_youtube_video_transcript" [("url", "")] =
      ([.text "Error: URL parameter is required"], false) :=
  (tool_call_empty_url String (fun s => s)
    (fun _ => (LookupResult.error "x" : LookupResult String))).1
